import Mathlib

/-!
Shallow embedding of the GrowthAgentAI career-pathfinder agent
(`src/main.py`, class `CareerPathfinderAgent` and its Pydantic models).

Modelling conventions:
* Python floats that only carry literal decimal values and range checks
  are embedded as `ℚ` (no float arithmetic occurs in the embedded code).
* `datetime` values are opaque timestamp strings; `datetime.now()` is an
  explicit `now : String` parameter of the operations that read the clock.
* Pydantic construction is a `mk…` function returning
  `Except ValidationError _`; it performs exactly the range checks the
  Python model declares (`Field(ge=…, le=…)` / `field_validator`) and
  nothing else.
* The external Portia collaborator call `self.portia.run(...)` is
  abstracted as a `RunOutcome` argument: it raises, or returns a result
  without a usable `outputs.final_output`, or returns a final-output
  value (for operations with a `structured_output_schema`, that value
  is either a schema instance or arbitrary raw data).
* Python dicts with string keys are association lists with
  last-write-wins insertion (`dictInsert`), matching dict update order.
-/

namespace GrowthAgent

/-- Python `str.lower()` restricted to the ASCII strings this code uses. -/
def pyLower (s : String) : String := String.mk (s.toList.map Char.toLower)

/-- Python `str.replace(a, b)` for single-character `a`, `b`. -/
def pyReplaceChar (a b : Char) (s : String) : String :=
  String.mk (s.toList.map (fun c => if c = a then b else c))

/-- Does `needle` occur as a prefix of some suffix of the list? -/
def subAt (needle : List Char) : List Char → Bool
  | [] => needle.isPrefixOf []
  | c :: cs => needle.isPrefixOf (c :: cs) || subAt needle cs

/-- Python substring containment `needle in hay`. -/
def pyIn (needle hay : String) : Bool := subAt needle.toList hay.toList

/-- Python dict assignment `d[k] = v`: replace in place, else append. -/
def dictInsert {α : Type} (l : List (String × α)) (k : String) (v : α) :
    List (String × α) :=
  if (l.lookup k).isSome then l.map (fun p => if p.1 = k then (k, v) else p)
  else l ++ [(k, v)]

/-- `Except.isOk` as a plain projection. -/
def exOk {ε α : Type} : Except ε α → Bool
  | .ok _ => true
  | .error _ => false

-- Enumerations (`SkillLevel`, `CareerStage`, `LearningStyle`, `Industry`).

inductive SkillLevel where
  | beginner | intermediate | advanced | expert
deriving DecidableEq, Repr

inductive CareerStage where
  | student | entry_level | mid_career | senior | leader | executive
deriving DecidableEq, Repr

inductive LearningStyle where
  | visual | auditory | kinesthetic | reading_writing | mixed
deriving DecidableEq, Repr

inductive Industry where
  | technology | healthcare | finance | education | manufacturing
  | retail | consulting | government | nonprofit | other
deriving DecidableEq, Repr

/-- A Pydantic validation failure: the offending field and the violated
constraint's message. -/
structure ValidationError where
  field : String
  constraint : String
deriving DecidableEq, Repr

/-- Exceptions the agent methods raise themselves: `ValueError` for an
unknown user (a NotFound-kind error) and `KeyError` for a direct dict
miss. -/
inductive AgentError where
  | valueError (msg : String)
  | keyError (key : String)
deriving DecidableEq, Repr

-- Domain models (Pydantic `BaseModel`s in `src/main.py`).

structure Skill where
  name : String
  level : SkillLevel
  relevance_score : ℚ
  years_experience : ℚ
  last_used : Option String
  target_level : SkillLevel
deriving DecidableEq, Repr

/-- `Skill(...)`: `relevance_score` is constrained to `[0, 10]` both by
`Field(ge=0.0, le=10.0)` and by the `validate_relevance` field
validator; no other field is range-checked. -/
def mkSkill (name : String) (level : SkillLevel) (relevance_score : ℚ)
    (years_experience : ℚ) (last_used : Option String)
    (target_level : SkillLevel) : Except ValidationError Skill :=
  if 0 ≤ relevance_score ∧ relevance_score ≤ 10 then
    .ok ⟨name, level, relevance_score, years_experience, last_used, target_level⟩
  else
    .error ⟨"relevance_score", "Relevance score must be between 0 and 10"⟩

structure Interest where
  topic : String
  intensity : ℚ
  career_relevance : ℚ
  exploration_status : String
deriving DecidableEq, Repr

/-- `Interest(...)`: `intensity` and `career_relevance` each carry
`Field(ge=0.0, le=10.0)`; fields are validated in declaration order. -/
def mkInterest (topic : String) (intensity : ℚ) (career_relevance : ℚ)
    (exploration_status : String := "discovered") :
    Except ValidationError Interest :=
  if ¬(0 ≤ intensity ∧ intensity ≤ 10) then
    .error ⟨"intensity", "Input should be in range [0, 10]"⟩
  else if ¬(0 ≤ career_relevance ∧ career_relevance ≤ 10) then
    .error ⟨"career_relevance", "Input should be in range [0, 10]"⟩
  else
    .ok ⟨topic, intensity, career_relevance, exploration_status⟩

structure CareerGoal where
  title : String
  description : String
  target_date : Option String
  priority : ℤ
  status : String
  required_skills : List String
deriving DecidableEq, Repr

/-- `CareerGoal(...)`: `priority` carries `Field(ge=1, le=5)`. -/
def mkCareerGoal (title : String) (description : String)
    (target_date : Option String) (priority : ℤ)
    (status : String := "planned")
    (required_skills : List String := []) :
    Except ValidationError CareerGoal :=
  if 1 ≤ priority ∧ priority ≤ 5 then
    .ok ⟨title, description, target_date, priority, status, required_skills⟩
  else
    .error ⟨"priority", "Input should be in range [1, 5]"⟩

structure LearningResource where
  title : String
  platform : String
  url : String
  duration_hours : ℚ
  difficulty : String
  skills_covered : List String
  rating : ℚ
  cost : ℚ
  completion_status : String
deriving DecidableEq, Repr

/-- `LearningResource(...)`: `rating` carries `Field(ge=0.0, le=5.0)`;
`duration_hours` and `cost` are unconstrained. -/
def mkLearningResource (title : String) (platform : String) (url : String)
    (duration_hours : ℚ) (difficulty : String)
    (skills_covered : List String := []) (rating : ℚ := 0) (cost : ℚ := 0)
    (completion_status : String := "not_started") :
    Except ValidationError LearningResource :=
  if 0 ≤ rating ∧ rating ≤ 5 then
    .ok ⟨title, platform, url, duration_hours, difficulty, skills_covered,
         rating, cost, completion_status⟩
  else
    .error ⟨"rating", "Input should be in range [0, 5]"⟩

structure JobOpportunity where
  title : String
  company : String
  location : String
  salary_range : ℚ × ℚ
  required_skills : List String
  preferred_skills : List String
  industry : Industry
  remote_friendly : Bool
  application_deadline : Option String
deriving DecidableEq, Repr

/-- `JobOpportunity(...)`: `salary_range` is a plain
`Tuple[float, float]` field — the model declares no validator and no
ordering constraint on it, so every pair is accepted. -/
def mkJobOpportunity (title : String) (company : String) (location : String)
    (salary_range : ℚ × ℚ) (required_skills : List String)
    (preferred_skills : List String) (industry : Industry)
    (remote_friendly : Bool) (application_deadline : Option String) :
    Except ValidationError JobOpportunity :=
  .ok ⟨title, company, location, salary_range, required_skills,
       preferred_skills, industry, remote_friendly, application_deadline⟩

structure UserProfile where
  user_id : String
  name : String
  email : String
  current_role : String
  current_company : String
  career_stage : CareerStage
  years_experience : ℚ
  education_level : String
  learning_style : LearningStyle
  industry_preference : Industry
  location_preference : String
  salary_expectations : ℚ × ℚ
  skills : List Skill
  interests : List Interest
  career_goals : List CareerGoal
  learning_resources : List LearningResource
  created_at : String
  last_updated : String
deriving DecidableEq, Repr

/-- `UserProfile(...)`: like `JobOpportunity`, `salary_expectations` is a
plain `Tuple[float, float]` with no validator, so construction from
already-valid component models always succeeds. -/
def mkUserProfile (user_id name email current_role current_company : String)
    (career_stage : CareerStage) (years_experience : ℚ)
    (education_level : String) (learning_style : LearningStyle)
    (industry_preference : Industry) (location_preference : String)
    (salary_expectations : ℚ × ℚ) (skills : List Skill)
    (interests : List Interest) (career_goals : List CareerGoal)
    (learning_resources : List LearningResource)
    (created_at last_updated : String) : Except ValidationError UserProfile :=
  .ok ⟨user_id, name, email, current_role, current_company, career_stage,
       years_experience, education_level, learning_style,
       industry_preference, location_preference, salary_expectations,
       skills, interests, career_goals, learning_resources,
       created_at, last_updated⟩

/-- A milestone entry `{"month": m, "milestone": text}` of a roadmap. -/
structure Milestone where
  month : ℤ
  milestone : String
deriving DecidableEq, Repr

structure CareerRoadmap where
  user_id : String
  roadmap_id : String
  current_position : String
  target_position : String
  timeline_months : ℤ
  milestones : List Milestone
  skill_gaps : List String
  learning_path : List LearningResource
  market_analysis : List (String × String)
  risk_factors : List String
  created_at : String
  last_reviewed : String
deriving DecidableEq, Repr

-- Structured output schemas passed to the collaborator.

structure SkillAssessment where
  skill_gaps : List String
  career_recommendations : List String
  learning_priorities : List String
  timeline_suggestions : String
  risk_factors : List String
  mitigation_strategies : List String
deriving DecidableEq, Repr

structure JobMarketAnalysis where
  job_title : String
  location : String
  market_demand : String
  average_salary : String
  job_growth : String
  top_companies : List String
  required_skills : List String
  emerging_trends : List String
  remote_opportunities : String
  competition_level : String
deriving DecidableEq, Repr

structure WeeklyRecommendations where
  learning_focus : String
  skill_practice : List String
  career_development : List String
  networking_opportunities : List String
  progress_tracking : List (String × String)
deriving DecidableEq, Repr

/-- A value of a Python dict returned by an advisory operation: a
string, a list of strings, or a nested string-to-string dict. -/
inductive FVal where
  | s (v : String)
  | l (v : List String)
  | d (v : List (String × String))
deriving DecidableEq, Repr

/-- A Python dict with string keys, in insertion order. -/
abbrev FMap := List (String × FVal)

/-- What a dict-returning advisory operation hands back: either a dict
(`model_dump()` of a schema instance, or a fallback literal) or the
collaborator's final-output value passed through as-is. -/
inductive DictOut where
  | map (m : FMap)
  | raw (v : String)
deriving DecidableEq, Repr

/-- `SkillAssessment.model_dump()`. -/
def SkillAssessment.model_dump (a : SkillAssessment) : FMap :=
  [("skill_gaps", .l a.skill_gaps),
   ("career_recommendations", .l a.career_recommendations),
   ("learning_priorities", .l a.learning_priorities),
   ("timeline_suggestions", .s a.timeline_suggestions),
   ("risk_factors", .l a.risk_factors),
   ("mitigation_strategies", .l a.mitigation_strategies)]

/-- `JobMarketAnalysis.model_dump()`. -/
def JobMarketAnalysis.model_dump (a : JobMarketAnalysis) : FMap :=
  [("job_title", .s a.job_title),
   ("location", .s a.location),
   ("market_demand", .s a.market_demand),
   ("average_salary", .s a.average_salary),
   ("job_growth", .s a.job_growth),
   ("top_companies", .l a.top_companies),
   ("required_skills", .l a.required_skills),
   ("emerging_trends", .l a.emerging_trends),
   ("remote_opportunities", .s a.remote_opportunities),
   ("competition_level", .s a.competition_level)]

/-- `WeeklyRecommendations.model_dump()`. -/
def WeeklyRecommendations.model_dump (a : WeeklyRecommendations) : FMap :=
  [("learning_focus", .s a.learning_focus),
   ("skill_practice", .l a.skill_practice),
   ("career_development", .l a.career_development),
   ("networking_opportunities", .l a.networking_opportunities),
   ("progress_tracking", .d a.progress_tracking)]

/-- The agent's in-memory stores: `self.user_profiles` and
`self.career_roadmaps`. -/
structure Store where
  user_profiles : List (String × UserProfile)
  career_roadmaps : List (String × CareerRoadmap)
deriving DecidableEq, Repr

/-- For an operation that requested `structured_output_schema = α`, the
final-output value is either an `α` instance or arbitrary other data
(modelled as a raw string), mirroring the `isinstance` check. -/
inductive SchemaOr (α : Type) where
  | structured (a : α)
  | raw (v : String)
deriving DecidableEq, Repr

/-- One behaviour of the collaborator call `self.portia.run(...)`: it
raises some exception, or returns a result without usable
`outputs.final_output` attributes, or returns a final-output value. -/
inductive RunOutcome (α : Type) where
  | raises
  | noFinalOutput
  | value (v : α)
deriving DecidableEq, Repr

-- Fallback payloads (hardcoded literals in `src/main.py`).

/-- The dict literal returned by `_get_fallback_assessment` (its body
fetches the profile but never reads it). -/
def assessmentFallbackPayload : FMap :=
  [("skill_gaps", .l ["Machine Learning", "Cloud Computing", "Leadership"]),
   ("career_recommendations", .l
     ["Focus on ML fundamentals through Coursera courses",
      "Gain cloud experience with AWS/Azure certifications",
      "Develop leadership through team projects"]),
   ("learning_priorities", .l
     ["Machine Learning", "Cloud Computing", "Leadership"]),
   ("timeline_suggestions", .s "6-18 months for skill development"),
   ("risk_factors", .l ["Rapidly evolving field", "High competition"]),
   ("mitigation_strategies", .l
     ["Continuous learning and upskilling",
      "Building portfolio projects",
      "Networking and mentorship"])]

/-- `_get_fallback_assessment(user_id)`: looks the profile up (a raw
dict access, `KeyError` if absent) and returns the constant payload. -/
def get_fallback_assessment (st : Store) (user_id : String) :
    Except AgentError FMap :=
  match st.user_profiles.lookup user_id with
  | none => .error (.keyError user_id)
  | some _profile => .ok assessmentFallbackPayload

/-- `assess_skills_and_goals(user_id)` against a collaborator whose
`run` call behaves as `run`. -/
def assess_skills_and_goals (st : Store) (user_id : String)
    (run : RunOutcome (SchemaOr SkillAssessment)) :
    Except AgentError DictOut :=
  match st.user_profiles.lookup user_id with
  | none => .error (.valueError ("User " ++ user_id ++ " not found"))
  | some _profile =>
    match run with
    | .value (.structured a) => .ok (.map a.model_dump)
    | .value (.raw v) => .ok (.raw v)
    | .noFinalOutput => (get_fallback_assessment st user_id).map .map
    | .raises => (get_fallback_assessment st user_id).map .map

-- Learning-path generation.

/-- The "Python for Data Science" resource appended by
`_parse_learning_resources_from_text` on a "python" keyword match. -/
def pythonDataScienceResource : LearningResource :=
  ⟨"Python for Data Science", "Coursera",
   "https://coursera.org/python-data-science", 40, "intermediate",
   ["Python", "Data Analysis"], 4.6, 49, "not_started"⟩

/-- The "Machine Learning Specialization" resource appended by
`_parse_learning_resources_from_text` on a "machine learning" match. -/
def mlSpecializationResource : LearningResource :=
  ⟨"Machine Learning Specialization", "Coursera",
   "https://coursera.org/ml-specialization", 80, "intermediate",
   ["Machine Learning", "Python"], 4.8, 79, "not_started"⟩

/-- The "Python for Everybody" fallback resource. -/
def pythonForEverybodyResource : LearningResource :=
  ⟨"Python for Everybody", "Coursera", "https://coursera.org/python", 40,
   "beginner", ["Python", "Programming"], 4.8, 49, "not_started"⟩

/-- The "Data Science Fundamentals" fallback resource. -/
def dataScienceFundamentalsResource : LearningResource :=
  ⟨"Data Science Fundamentals", "edX", "https://edx.org/data-science", 60,
   "intermediate", ["Data Analysis", "Statistics", "Python"], 4.6, 99,
   "not_started"⟩

/-- The generic `Introduction to <skill>` fallback resource, with the
URL slug `skill.lower().replace(' ', '-')`. -/
def genericSkillResource (skill : String) : LearningResource :=
  ⟨"Introduction to " ++ skill, "Udemy",
   "https://udemy.com/" ++ pyReplaceChar ' ' '-' (pyLower skill), 30,
   "beginner", [skill], 4.5, 39, "not_started"⟩

/-- The fallback resource chosen for one skill name: the loop body of
`_get_fallback_learning_resources` appends exactly one resource per
skill, selected by keyword matching on `skill.lower()`. -/
def fallbackResourceFor (skill : String) : LearningResource :=
  if pyIn "python" (pyLower skill) then pythonForEverybodyResource
  else if pyIn "data" (pyLower skill) || pyIn "machine learning" (pyLower skill)
         || pyIn "ml" (pyLower skill) then dataScienceFundamentalsResource
  else genericSkillResource skill

/-- `_get_fallback_learning_resources(target_skills)`: one resource per
skill among the first three (`target_skills[:3]`). -/
def get_fallback_learning_resources (target_skills : List String) :
    List LearningResource :=
  (target_skills.take 3).map fallbackResourceFor

/-- The resource (if any) the text-parsing loop body appends for one
skill: "python" and "machine learning" matches append a fixed resource,
anything else appends nothing. -/
def parsedResourceFor (skill : String) : Option LearningResource :=
  if pyIn "python" (pyLower skill) then some pythonDataScienceResource
  else if pyIn "machine learning" (pyLower skill) then
    some mlSpecializationResource
  else none

/-- `_parse_learning_resources_from_text(text_response, target_skills)`:
the text response itself is never inspected; resources come from the
keyword loop over `target_skills[:3]`, with the fallback list substituted
when that loop produced nothing. -/
def parse_learning_resources_from_text (_text_response : String)
    (target_skills : List String) : List LearningResource :=
  let resources := (target_skills.take 3).filterMap parsedResourceFor
  if resources.isEmpty then get_fallback_learning_resources target_skills
  else resources

/-- `generate_learning_path(user_id, target_skills)`; this operation
runs the collaborator without a structured output schema, so a
final-output value is raw text. -/
def generate_learning_path (st : Store) (user_id : String)
    (target_skills : List String) (run : RunOutcome String) :
    Except AgentError (List LearningResource) :=
  match st.user_profiles.lookup user_id with
  | none => .error (.valueError ("User " ++ user_id ++ " not found"))
  | some _profile =>
    match run with
    | .value text => .ok (parse_learning_resources_from_text text target_skills)
    | .noFinalOutput => .ok (get_fallback_learning_resources target_skills)
    | .raises => .ok (get_fallback_learning_resources target_skills)

-- Career roadmaps.

/-- The fixed milestone schedule both roadmap paths hardcode. -/
def roadmapMilestones : List Milestone :=
  [⟨3, "Complete fundamentals course"⟩,
   ⟨6, "Build portfolio project"⟩,
   ⟨12, "Gain practical experience"⟩,
   ⟨18, "Apply for target roles"⟩]

/-- The roadmap literal the fallback path builds: id
`f"fallback_roadmap_{user_id}_{now}"`, the profile current role, and
the fixed 18-month/4-milestone schedule. -/
def fallbackCareerRoadmap (user_id current_role target_role now : String) :
    CareerRoadmap :=
  ⟨user_id, "fallback_roadmap_" ++ user_id ++ "_" ++ now,
   current_role, target_role, 18, roadmapMilestones,
   ["Advanced skills", "Industry experience", "Leadership"], [],
   [("demand", "High"), ("salary_increase", "20-35%"),
    ("growth_rate", "12% annually")],
   ["Competitive field", "Skill requirements", "Market changes"],
   now, now⟩

/-- The roadmap literal the Delegate-success path builds: id
`f"roadmap_{user_id}_{now}"`, same fixed schedule, its own skill-gap
and market literals; the agent text is not consulted. -/
def successCareerRoadmap (user_id current_role target_role now : String) :
    CareerRoadmap :=
  ⟨user_id, "roadmap_" ++ user_id ++ "_" ++ now,
   current_role, target_role, 18, roadmapMilestones,
   ["Machine Learning", "Advanced Analytics", "Leadership"], [],
   [("demand", "High"), ("salary_increase", "25-40%"),
    ("growth_rate", "15% annually")],
   ["Competitive field", "Continuous learning required"], now, now⟩

/-- `_get_fallback_career_roadmap(user_id, target_role)`: fetches the
profile (raw dict access) for `current_role` and builds the fallback
roadmap literal. -/
def get_fallback_career_roadmap (st : Store) (user_id : String)
    (target_role : String) (now : String) : Except AgentError CareerRoadmap :=
  match st.user_profiles.lookup user_id with
  | none => .error (.keyError user_id)
  | some profile =>
    .ok (fallbackCareerRoadmap user_id profile.current_role target_role now)

/-- `create_career_roadmap(user_id, target_role)` returns the roadmap
and the (possibly updated) store; only the success path registers the
roadmap in `self.career_roadmaps`. -/
def create_career_roadmap (st : Store) (user_id : String)
    (target_role : String) (now : String) (run : RunOutcome String) :
    Except AgentError (CareerRoadmap × Store) :=
  match st.user_profiles.lookup user_id with
  | none => .error (.valueError ("User " ++ user_id ++ " not found"))
  | some profile =>
    match run with
    | .value _text =>
      let roadmap_obj : CareerRoadmap :=
        successCareerRoadmap user_id profile.current_role target_role now
      .ok (roadmap_obj,
           { st with career_roadmaps :=
               dictInsert st.career_roadmaps roadmap_obj.roadmap_id roadmap_obj })
    | .noFinalOutput =>
      (get_fallback_career_roadmap st user_id target_role now).map (·, st)
    | .raises =>
      (get_fallback_career_roadmap st user_id target_role now).map (·, st)

-- Job-market analysis.

/-- `_get_fallback_job_market_analysis(job_title, location, skills)`. -/
def get_fallback_job_market_analysis (job_title : String)
    (location : String) (skills : List String) : FMap :=
  [("job_title", .s job_title),
   ("location", .s location),
   ("market_demand", .s "High"),
   ("average_salary", .s "$80,000 - $150,000"),
   ("job_growth", .s "15% annually"),
   ("top_companies", .l ["Tech Companies", "Startups", "Enterprise"]),
   ("required_skills", .l (skills ++ ["Communication", "Problem Solving"])),
   ("emerging_trends", .l ["AI/ML", "Remote Work", "Automation"]),
   ("remote_opportunities", .s "High (60% of roles)"),
   ("competition_level", .s "Medium to High")]

/-- `analyze_job_market(job_title, location, skills)`: note it performs
no profile-store lookup at all, and every failure path lands in the
fallback, so it never raises. -/
def analyze_job_market (job_title : String) (location : String)
    (skills : List String) (run : RunOutcome (SchemaOr JobMarketAnalysis)) :
    DictOut :=
  match run with
  | .value (.structured a) => .map a.model_dump
  | .value (.raw v) => .raw v
  | .noFinalOutput => .map (get_fallback_job_market_analysis job_title location skills)
  | .raises => .map (get_fallback_job_market_analysis job_title location skills)

-- Weekly recommendations.

/-- `_get_fallback_weekly_recommendations(user_id)`: a constant dict
(the method never touches the store). -/
def weeklyFallbackPayload : FMap :=
  [("learning_focus", .s "Machine Learning fundamentals"),
   ("skill_practice", .l
     ["Complete 2 Python coding challenges",
      "Practice data visualization with real datasets",
      "Review ML algorithms and concepts"]),
   ("career_development", .l
     ["Update LinkedIn profile with new skills",
      "Attend 1 industry webinar or meetup",
      "Research target companies and roles"]),
   ("networking_opportunities", .l
     ["Connect with 3 professionals in target field",
      "Join relevant LinkedIn groups",
      "Participate in online tech communities"]),
   ("progress_tracking", .d
     [("weekly_goals", "Complete 1 course module"),
      ("skill_improvement", "Practice Python daily"),
      ("career_progress", "Apply to 2 relevant positions")])]

/-- `get_weekly_recommendations(user_id)`. -/
def get_weekly_recommendations (st : Store) (user_id : String)
    (run : RunOutcome (SchemaOr WeeklyRecommendations)) :
    Except AgentError DictOut :=
  match st.user_profiles.lookup user_id with
  | none => .error (.valueError ("User " ++ user_id ++ " not found"))
  | some _profile =>
    match run with
    | .value (.structured a) => .ok (.map a.model_dump)
    | .value (.raw v) => .ok (.raw v)
    | .noFinalOutput => .ok (.map weeklyFallbackPayload)
    | .raises => .ok (.map weeklyFallbackPayload)

-- Result projections (used to state theorems without binders in
-- their conclusions).

/-- The roadmap component of a `create_career_roadmap` result. -/
def rmOf : Except AgentError (CareerRoadmap × Store) → Option CareerRoadmap
  | .ok (rm, _) => some rm
  | .error _ => none

/-- The store component of a `create_career_roadmap` result. -/
def storeOf : Except AgentError (CareerRoadmap × Store) → Option Store
  | .ok (_, st) => some st
  | .error _ => none

/-- The resource-count of a `generate_learning_path` result. -/
def lrCount : Except AgentError (List LearningResource) → Option ℕ
  | .ok rs => some rs.length
  | .error _ => none

-- Concrete fixtures (used by witnesses and counterexamples).

/-- A registered demo profile, patterned on the demo data in `main.py`. -/
def demoProfile : UserProfile :=
  ⟨"demo_user_001", "Alex Johnson", "alex.johnson@email.com", "Data Analyst",
   "TechCorp", .mid_career, 3, "BSc Statistics", .visual, .technology,
   "San Francisco, CA", (80000, 120000), [], [], [], [],
   "20250101_000000", "20250101_000000"⟩

/-- A store holding exactly the demo profile. -/
def demoStore : Store := ⟨[("demo_user_001", demoProfile)], []⟩

/-- The demo profile with a different `current_role`. -/
def demoProfileB : UserProfile := { demoProfile with current_role := "Engineer" }

/-- A store holding the variant profile under the same user id. -/
def demoStoreB : Store := ⟨[("demo_user_001", demoProfileB)], []⟩

deriving instance DecidableEq for Except

-- Theorems.

/-- C1: for every user id and every behaviour of the collaborator's
`run` call, `assess_skills_and_goals` raises the NotFound-kind
`ValueError "User … not found"` when the id is unregistered (before the
Delegate step — the error is the same for every collaborator
behaviour), and returns normally when the id is registered, including
when `run` raises: the failure is never surfaced to the caller. -/
theorem assess_notfound_or_total (st : Store) (user_id : String)
    (run : RunOutcome (SchemaOr SkillAssessment)) :
    (st.user_profiles.lookup user_id = none →
      assess_skills_and_goals st user_id run =
        .error (.valueError ("User " ++ user_id ++ " not found"))) ∧
    (∀ p, st.user_profiles.lookup user_id = some p →
      exOk (assess_skills_and_goals st user_id run) = true) := by
  constructor
  · intro h
    simp [assess_skills_and_goals, h]
  · intro p h
    cases run with
    | raises =>
      simp [assess_skills_and_goals, h, get_fallback_assessment, exOk,
            Except.map]
    | noFinalOutput =>
      simp [assess_skills_and_goals, h, get_fallback_assessment, exOk,
            Except.map]
    | value v =>
      cases v <;> simp [assess_skills_and_goals, h, exOk]

/-- Witness for C1 at the demo store: the unregistered id "ghost" gets
the NotFound error and the registered demo id returns normally under a
raising collaborator. -/
theorem assess_notfound_or_total_witness :
    assess_skills_and_goals demoStore "ghost" .raises =
      .error (.valueError ("User " ++ "ghost" ++ " not found")) ∧
    exOk (assess_skills_and_goals demoStore "demo_user_001" .raises) = true :=
  ⟨(assess_notfound_or_total demoStore "ghost" .raises).1 rfl,
   (assess_notfound_or_total demoStore "demo_user_001" .raises).2
     demoProfile rfl⟩

/-- C2: for a registered user and a raising collaborator,
`assess_skills_and_goals` returns the fallback mapping, which carries
all six required keys, with `skill_gaps` and `timeline_suggestions`
equal to the literal fallback values. -/
theorem assess_fallback_payload_spec (st : Store) (user_id : String)
    (p : UserProfile) (h : st.user_profiles.lookup user_id = some p) :
    assess_skills_and_goals st user_id .raises =
      .ok (.map assessmentFallbackPayload) ∧
    assessmentFallbackPayload.lookup "skill_gaps" =
      some (.l ["Machine Learning", "Cloud Computing", "Leadership"]) ∧
    assessmentFallbackPayload.lookup "timeline_suggestions" =
      some (.s "6-18 months for skill development") ∧
    (assessmentFallbackPayload.lookup "career_recommendations").isSome = true ∧
    (assessmentFallbackPayload.lookup "learning_priorities").isSome = true ∧
    (assessmentFallbackPayload.lookup "risk_factors").isSome = true ∧
    (assessmentFallbackPayload.lookup "mitigation_strategies").isSome = true := by
  refine ⟨?_, by decide, by decide, by decide, by decide, by decide, by decide⟩
  simp [assess_skills_and_goals, h, get_fallback_assessment, Except.map]

/-- Witness for C2 at the demo store. -/
theorem assess_fallback_payload_spec_witness :
    assess_skills_and_goals demoStore "demo_user_001" .raises =
      .ok (.map assessmentFallbackPayload) ∧
    assessmentFallbackPayload.lookup "skill_gaps" =
      some (.l ["Machine Learning", "Cloud Computing", "Leadership"]) :=
  ⟨(assess_fallback_payload_spec demoStore "demo_user_001" demoProfile
      rfl).1,
   (assess_fallback_payload_spec demoStore "demo_user_001" demoProfile
      rfl).2.1⟩

/-- C3: for a registered user, `create_career_roadmap` always returns a
roadmap with `timeline_months = 18` and exactly 4 milestones at months
3, 6, 12 and 18, for every collaborator behaviour — the agent's
response is never parsed into these structured fields. -/
theorem create_career_roadmap_fixed_schedule (st : Store) (user_id : String)
    (p : UserProfile) (target_role now : String) (run : RunOutcome String)
    (h : st.user_profiles.lookup user_id = some p) :
    (rmOf (create_career_roadmap st user_id target_role now run)).map
      CareerRoadmap.timeline_months = some 18 ∧
    (rmOf (create_career_roadmap st user_id target_role now run)).map
      (List.length ∘ CareerRoadmap.milestones) = some 4 ∧
    (rmOf (create_career_roadmap st user_id target_role now run)).map
      (List.map Milestone.month ∘ CareerRoadmap.milestones) =
      some [3, 6, 12, 18] := by
  cases run <;>
    simp only [create_career_roadmap, h, get_fallback_career_roadmap,
      Except.map] <;>
    exact ⟨rfl, rfl, rfl⟩

/-- Witness for C3 at the demo store with a raising collaborator. -/
theorem create_career_roadmap_fixed_schedule_witness :
    (rmOf (create_career_roadmap demoStore "demo_user_001" "Data Scientist"
      "20250101_000000" .raises)).map CareerRoadmap.timeline_months =
      some 18 ∧
    (rmOf (create_career_roadmap demoStore "demo_user_001" "Data Scientist"
      "20250101_000000" .raises)).map
      (List.map Milestone.month ∘ CareerRoadmap.milestones) =
      some [3, 6, 12, 18] :=
  ⟨(create_career_roadmap_fixed_schedule demoStore "demo_user_001"
      demoProfile "Data Scientist" "20250101_000000" .raises rfl).1,
   (create_career_roadmap_fixed_schedule demoStore "demo_user_001"
      demoProfile "Data Scientist" "20250101_000000" .raises rfl).2.2⟩

/-- C4 counterexample: `create_career_roadmap` with a deterministically
raising collaborator is NOT independent of profile contents (two stores
that differ only in the profile's `current_role` give different fallback
results) and NOT identical across calls (two calls at different clock
readings give different results, since the timestamp is embedded in the
roadmap id and the timestamp fields). -/
theorem roadmap_fallback_depends_on_profile_and_clock :
    (create_career_roadmap demoStore "demo_user_001" "Data Scientist"
        "20250101_000000" .raises ≠
      create_career_roadmap demoStoreB "demo_user_001" "Data Scientist"
        "20250101_000000" .raises) ∧
    (create_career_roadmap demoStore "demo_user_001" "Data Scientist"
        "20250101_000000" .raises ≠
      create_career_roadmap demoStore "demo_user_001" "Data Scientist"
        "20250101_000001" .raises) := by
  constructor <;> decide

/-- C4 amended: with a deterministically raising collaborator, the
assessment, learning-path, job-market and weekly operations return
results that are fully determined by the call's inputs and independent
of profile contents (hence byte-identical across repeated calls);
`create_career_roadmap` is the exception — its fallback embeds the
profile's `current_role` and the current timestamp. -/
theorem advisory_fallbacks_profile_independent (st1 st2 : Store)
    (user_id : String) (p1 p2 : UserProfile) (target_skills : List String)
    (job_title location target_role now : String)
    (h1 : st1.user_profiles.lookup user_id = some p1)
    (h2 : st2.user_profiles.lookup user_id = some p2) :
    assess_skills_and_goals st1 user_id .raises =
      assess_skills_and_goals st2 user_id .raises ∧
    generate_learning_path st1 user_id target_skills .raises =
      generate_learning_path st2 user_id target_skills .raises ∧
    analyze_job_market job_title location target_skills .raises =
      .map (get_fallback_job_market_analysis job_title location target_skills) ∧
    get_weekly_recommendations st1 user_id .raises =
      get_weekly_recommendations st2 user_id .raises ∧
    storeOf (create_career_roadmap st1 user_id target_role now .raises) =
      some st1 ∧
    (rmOf (create_career_roadmap st1 user_id target_role now .raises)).map
      CareerRoadmap.current_position = some p1.current_role ∧
    (rmOf (create_career_roadmap st1 user_id target_role now .raises)).map
      CareerRoadmap.roadmap_id =
      some ("fallback_roadmap_" ++ user_id ++ "_" ++ now) ∧
    (rmOf (create_career_roadmap st1 user_id target_role now .raises)).map
      CareerRoadmap.created_at = some now := by
  refine ⟨?_, ?_, rfl, ?_, ?_, ?_, ?_, ?_⟩
  · simp [assess_skills_and_goals, h1, h2, get_fallback_assessment]
  · simp [generate_learning_path, h1, h2]
  · simp [get_weekly_recommendations, h1, h2]
  all_goals
    simp only [create_career_roadmap, h1, get_fallback_career_roadmap,
      Except.map]
    rfl

/-- Witness for the C4 amended theorem at the two demo stores. -/
theorem advisory_fallbacks_profile_independent_witness :
    assess_skills_and_goals demoStore "demo_user_001" .raises =
      assess_skills_and_goals demoStoreB "demo_user_001" .raises ∧
    generate_learning_path demoStore "demo_user_001" ["Python"] .raises =
      generate_learning_path demoStoreB "demo_user_001" ["Python"] .raises :=
  ⟨(advisory_fallbacks_profile_independent demoStore demoStoreB
      "demo_user_001" demoProfile demoProfileB ["Python"] "X" "Y"
      "Data Scientist" "20250101_000000" rfl rfl).1,
   (advisory_fallbacks_profile_independent demoStore demoStoreB
      "demo_user_001" demoProfile demoProfileB ["Python"] "X" "Y"
      "Data Scientist" "20250101_000000" rfl rfl).2.1⟩

/-- C5 counterexample: constructing a `JobOpportunity` whose salary
range has min > max (150000 > 80000) succeeds, and likewise a
`UserProfile` with inverted `salary_expectations` — no
ValidationError-kind outcome occurs, contrary to the claim. -/
theorem salary_order_not_validated_cex :
    exOk (mkJobOpportunity "Data Scientist" "TechCorp" "SF"
      (150000, 80000) [] [] .technology false none) = true ∧
    exOk (mkUserProfile "u1" "A" "a@example.com" "Analyst" "TechCorp"
      .mid_career 3 "BSc" .visual .technology "SF" (150000, 80000)
      [] [] [] [] "t0" "t0") = true :=
  ⟨rfl, rfl⟩

/-- C5 amended: no ordering constraint is enforced on salary pairs —
construction of `JobOpportunity` and `UserProfile` succeeds for every
pair, including min > max; the declared ordering is never validated. -/
theorem salary_pair_unchecked (lo hi : ℚ) (t c l : String)
    (rs ps : List String) (ind : Industry) (rf : Bool)
    (dl : Option String) (uid nm em cr cc el lp ts : String)
    (cs : CareerStage) (ye : ℚ) (ls : LearningStyle) (ip : Industry)
    (sk : List Skill) (it : List Interest) (cg : List CareerGoal)
    (lr : List LearningResource) :
    exOk (mkJobOpportunity t c l (lo, hi) rs ps ind rf dl) = true ∧
    exOk (mkUserProfile uid nm em cr cc cs ye el ls ip lp (lo, hi)
      sk it cg lr ts ts) = true :=
  ⟨rfl, rfl⟩

/-- C6: for `Skill`, `Interest`, `CareerGoal` and `LearningResource`,
construction succeeds exactly when every bounded score or priority lies
inside its declared closed interval (so strictly-outside values are
rejected with a ValidationError and every boundary value is accepted);
the final conjuncts check the boundary values 0, 10, 1 and 5
concretely. -/
theorem bounded_fields_validated :
    (∀ (n : String) (lv : SkillLevel) (v ye : ℚ) (lu : Option String)
        (tl : SkillLevel),
      exOk (mkSkill n lv v ye lu tl) = true ↔ 0 ≤ v ∧ v ≤ 10) ∧
    (∀ (t : String) (i c : ℚ) (es : String),
      exOk (mkInterest t i c es) = true ↔
        (0 ≤ i ∧ i ≤ 10) ∧ (0 ≤ c ∧ c ≤ 10)) ∧
    (∀ (t d : String) (td : Option String) (pr : ℤ) (s : String)
        (rq : List String),
      exOk (mkCareerGoal t d td pr s rq) = true ↔ 1 ≤ pr ∧ pr ≤ 5) ∧
    (∀ (t pf u : String) (dh : ℚ) (df : String) (sc : List String)
        (r co : ℚ) (cst : String),
      exOk (mkLearningResource t pf u dh df sc r co cst) = true ↔
        0 ≤ r ∧ r ≤ 5) ∧
    exOk (mkSkill "s" .beginner 0 0 none .expert) = true ∧
    exOk (mkSkill "s" .beginner 10 0 none .expert) = true ∧
    exOk (mkInterest "t" 0 10 "discovered") = true ∧
    exOk (mkCareerGoal "t" "d" none 1 "planned" []) = true ∧
    exOk (mkCareerGoal "t" "d" none 5 "planned" []) = true ∧
    exOk (mkLearningResource "t" "p" "u" 0 "d" [] 0 0 "not_started") = true ∧
    exOk (mkLearningResource "t" "p" "u" 0 "d" [] 5 0 "not_started") = true := by
  refine ⟨?_, ?_, ?_, ?_, by decide, by decide, by decide, by decide,
          by decide, by decide, by decide⟩
  · intro n lv v ye lu tl
    unfold mkSkill
    split_ifs with h <;> simp [exOk, h]
  · intro t i c es
    unfold mkInterest
    by_cases h1 : 0 ≤ i ∧ i ≤ 10 <;> by_cases h2 : 0 ≤ c ∧ c ≤ 10 <;>
      simp [h1, h2, exOk]
  · intro t d td pr s rq
    unfold mkCareerGoal
    split_ifs with h <;> simp [exOk, h]
  · intro t pf u dh df sc r co cst
    unfold mkLearningResource
    split_ifs with h <;> simp [exOk, h]

/-- C7: for a registered user and a raising collaborator,
`generate_learning_path(["Python"])` returns exactly the one
"Python for Everybody" Coursera resource (duration 40.0, cost 49.0) and
`generate_learning_path(["Quantum Computing"])` returns exactly the
generic "Introduction to Quantum Computing" resource whose URL ends in
the lower-cased, hyphenated slug. -/
theorem learning_path_fallback_lookup (st : Store) (user_id : String)
    (p : UserProfile) (h : st.user_profiles.lookup user_id = some p) :
    generate_learning_path st user_id ["Python"] .raises =
      .ok [pythonForEverybodyResource] ∧
    pythonForEverybodyResource.title = "Python for Everybody" ∧
    pythonForEverybodyResource.platform = "Coursera" ∧
    pythonForEverybodyResource.duration_hours = 40 ∧
    pythonForEverybodyResource.cost = 49 ∧
    generate_learning_path st user_id ["Quantum Computing"] .raises =
      .ok [genericSkillResource "Quantum Computing"] ∧
    (genericSkillResource "Quantum Computing").title =
      "Introduction to Quantum Computing" ∧
    (genericSkillResource "Quantum Computing").url =
      "https://udemy.com/quantum-computing" := by
  refine ⟨?_, rfl, rfl, rfl, rfl, ?_, rfl, rfl⟩
  · simp only [generate_learning_path, h]
    rfl
  · simp only [generate_learning_path, h]
    rfl

/-- Witness for C7 at the demo store. -/
theorem learning_path_fallback_lookup_witness :
    generate_learning_path demoStore "demo_user_001" ["Python"] .raises =
      .ok [pythonForEverybodyResource] ∧
    generate_learning_path demoStore "demo_user_001" ["Quantum Computing"]
      .raises = .ok [genericSkillResource "Quantum Computing"] :=
  ⟨(learning_path_fallback_lookup demoStore "demo_user_001" demoProfile
      rfl).1,
   (learning_path_fallback_lookup demoStore "demo_user_001" demoProfile
      rfl).2.2.2.2.2.1⟩

/-- C8: for a registered user, `generate_learning_path` never errors,
returns at most 3 resources on every path (free-text parsing and
fallback alike), and returns the empty list for the empty skill list. -/
theorem learning_path_cap_and_empty (st : Store) (user_id : String)
    (p : UserProfile) (target_skills : List String) (run : RunOutcome String)
    (h : st.user_profiles.lookup user_id = some p) :
    exOk (generate_learning_path st user_id target_skills run) = true ∧
    (lrCount (generate_learning_path st user_id target_skills run)).getD 0
      ≤ 3 ∧
    (target_skills = [] →
      generate_learning_path st user_id target_skills run = .ok []) := by
  have hfb : (get_fallback_learning_resources target_skills).length ≤ 3 := by
    simp only [get_fallback_learning_resources, List.length_map,
      List.length_take]
    omega
  have hparse : ∀ text,
      (parse_learning_resources_from_text text target_skills).length ≤ 3 := by
    intro text
    unfold parse_learning_resources_from_text
    have h1 := List.length_filterMap_le parsedResourceFor
      (target_skills.take 3)
    have h2 : (target_skills.take 3).length ≤ 3 := by
      simp only [List.length_take]
      omega
    by_cases hemp :
        ((target_skills.take 3).filterMap parsedResourceFor).isEmpty
    · simpa [hemp] using hfb
    · simp [hemp]
      omega
  cases run with
  | raises =>
    refine ⟨?_, ?_, ?_⟩ <;>
      simp_all [generate_learning_path, exOk, lrCount,
        get_fallback_learning_resources]
  | noFinalOutput =>
    refine ⟨?_, ?_, ?_⟩ <;>
      simp_all [generate_learning_path, exOk, lrCount,
        get_fallback_learning_resources]
  | value text =>
    refine ⟨?_, ?_, ?_⟩
    · simp [generate_learning_path, h, exOk]
    · simpa [generate_learning_path, h, lrCount] using hparse text
    · intro he
      subst he
      simp [generate_learning_path, h,
        parse_learning_resources_from_text,
        get_fallback_learning_resources]

/-- Witness for C8 at the demo store: a four-skill input is capped at 3
and the empty input returns the empty list. -/
theorem learning_path_cap_and_empty_witness :
    (lrCount (generate_learning_path demoStore "demo_user_001"
      ["A", "B", "C", "D"] .raises)).getD 0 ≤ 3 ∧
    generate_learning_path demoStore "demo_user_001" [] .raises = .ok [] :=
  ⟨(learning_path_cap_and_empty demoStore "demo_user_001" demoProfile
      ["A", "B", "C", "D"] .raises rfl).2.1,
   (learning_path_cap_and_empty demoStore "demo_user_001" demoProfile
      [] .raises rfl).2.2 rfl⟩

/-- C9: `analyze_job_market` takes no profile store at all (no
registration requirement), and with a raising collaborator returns the
fallback mapping whose `required_skills` is the caller-supplied list
concatenated with "Communication" and "Problem Solving"; the last
conjunct checks the claim's `["A","B"]` example. -/
theorem job_market_fallback_required_skills (job_title location : String)
    (skills : List String) :
    analyze_job_market job_title location skills .raises =
      .map (get_fallback_job_market_analysis job_title location skills) ∧
    (get_fallback_job_market_analysis job_title location skills).lookup
        "required_skills" =
      some (.l (skills ++ ["Communication", "Problem Solving"])) ∧
    (get_fallback_job_market_analysis "X" "Y" ["A", "B"]).lookup
        "required_skills" =
      some (.l ["A", "B", "Communication", "Problem Solving"]) :=
  ⟨rfl, rfl, rfl⟩

/-- C10: for a registered user, when the collaborator raises, the
returned fallback roadmap is not registered — the store comes back
unchanged — and its id carries the `fallback_roadmap_` prefix; the
success path's id carries the `roadmap_` prefix (the two ids always
differ) and only that path inserts the roadmap into the store. -/
theorem roadmap_store_frame (st : Store) (user_id : String)
    (p : UserProfile) (target_role now text : String)
    (h : st.user_profiles.lookup user_id = some p) :
    storeOf (create_career_roadmap st user_id target_role now .raises) =
      some st ∧
    (rmOf (create_career_roadmap st user_id target_role now .raises)).map
      CareerRoadmap.roadmap_id =
      some ("fallback_roadmap_" ++ user_id ++ "_" ++ now) ∧
    (rmOf (create_career_roadmap st user_id target_role now
      (.value text))).map CareerRoadmap.roadmap_id =
      some ("roadmap_" ++ user_id ++ "_" ++ now) ∧
    ("fallback_roadmap_" ++ user_id ++ "_" ++ now : String) ≠
      "roadmap_" ++ user_id ++ "_" ++ now ∧
    storeOf (create_career_roadmap st user_id target_role now
      (.value text)) =
      some ⟨st.user_profiles,
            dictInsert st.career_roadmaps
              ("roadmap_" ++ user_id ++ "_" ++ now)
              (successCareerRoadmap user_id p.current_role target_role
                now)⟩ := by
  refine ⟨?_, ?_, ?_, ?_, ?_⟩
  · simp only [create_career_roadmap, h, get_fallback_career_roadmap,
      Except.map]
    rfl
  · simp only [create_career_roadmap, h, get_fallback_career_roadmap,
      Except.map]
    rfl
  · simp only [create_career_roadmap, h]
    rfl
  · intro hid
    have hlen := congrArg String.length hid
    have e1 : ("fallback_roadmap_" : String).length = 17 := rfl
    have e2 : ("roadmap_" : String).length = 8 := rfl
    simp only [String.length_append, e1, e2] at hlen
    omega
  · simp only [create_career_roadmap, h]
    rfl

/-- Witness for C10 at the demo store. -/
theorem roadmap_store_frame_witness :
    storeOf (create_career_roadmap demoStore "demo_user_001"
      "Data Scientist" "20250101_000000" .raises) = some demoStore ∧
    (rmOf (create_career_roadmap demoStore "demo_user_001" "Data Scientist"
      "20250101_000000" .raises)).map CareerRoadmap.roadmap_id =
      some ("fallback_roadmap_" ++ "demo_user_001" ++ "_" ++
        "20250101_000000") :=
  ⟨(roadmap_store_frame demoStore "demo_user_001" demoProfile
      "Data Scientist" "20250101_000000" "agent response" rfl).1,
   (roadmap_store_frame demoStore "demo_user_001" demoProfile
      "Data Scientist" "20250101_000000" "agent response" rfl).2.1⟩

end GrowthAgent
